import Mathlib

/-!
Verification development for the MCP idea/project tracker.

The embedding covers the single ProjectIdea table defined in
`src/db/schema.sql` (scored fields with CHECK constraints and the two
generated columns `total_score` / `project_tier`) and the three tool
handlers of `src/idea-bot.js` (`idea_bot_add`, `idea_bot_get`,
`idea_artifact`) together with the unused summary helper
`generateDashboard`.  The schema file names the table `projects` while
the handlers address it as `idea_store`; both refer to the same
ProjectIdea table shape, which is what we model.

A handler is modelled as a function from the table state (a list of
rows in insertion order) and its argument bag to a result paired with
the table state afterwards.  SQL SELECT statements are reads: they
return rows and leave the state unchanged; the INSERT of the add
handler appends a row when every CHECK constraint passes and otherwise
fails, leaving the state unchanged (the dispatcher's catch turns the
failure into an error-flagged result).  JavaScript `x || d` defaulting
is modelled explicitly because it treats 0 and "" as absent.  SQLite's
LIKE operator is modelled with its documented semantics: `%` matches
any run, `_` one character, and ASCII letters compare
case-insensitively.  Timestamp columns are not modelled; no claim
mentions them.
-/

namespace IdeaTracker

/-- A stored ProjectIdea row, per the table in `src/db/schema.sql`.
`total_score` and `project_tier` are the stored generated columns. -/
structure Row where
  id : Nat
  project_name : String
  category : String
  priority_level : Int
  size_score : Int
  business_impact : Int
  resource_type : Int
  risk_level : Int
  total_score : Int
  project_tier : Int
  project_phase : String
  notes : String
deriving DecidableEq, Repr

/-- The generated column `total_score`: sum of the five scored fields. -/
def totalScore (p s b r k : Int) : Int :=
  p + s + b + r + k

/-- The generated column `project_tier`: the CASE expression of the schema
(tier 1 when the sum is at least 16, tier 2 when at least 11, else 3). -/
def projectTier (p s b r k : Int) : Int :=
  if 16 ≤ p + s + b + r + k then 1
  else if 11 ≤ p + s + b + r + k then 2
  else 3

/-- The CHECK constraint `project_phase IN (...)` of the schema. -/
def phaseOk (ph : String) : Bool :=
  decide (ph = "Planning") || decide (ph = "In Progress") ||
  decide (ph = "On Hold") || decide (ph = "Completed")

/-- All CHECK constraints of the schema on the inserted values. -/
def checksOk (p s b r k : Int) (ph : String) : Bool :=
  (decide (1 ≤ p) && decide (p ≤ 4)) &&
  (decide (1 ≤ s) && decide (s ≤ 3)) &&
  (decide (1 ≤ b) && decide (b ≤ 4)) &&
  (decide (1 ≤ r) && decide (r ≤ 3)) &&
  (decide (1 ≤ k) && decide (k ≤ 3)) &&
  phaseOk ph

/-- The row the INSERT statement produces: the caller supplies the nine
settable columns, the store assigns `id` and computes the two generated
columns.  There is no way to pass `total_score` or `project_tier`. -/
def mkRow (nextId : Nat) (name cat : String) (p s b r k : Int) (ph nts : String) : Row :=
  { id := nextId, project_name := name, category := cat,
    priority_level := p, size_score := s, business_impact := b,
    resource_type := r, risk_level := k,
    total_score := totalScore p s b r k,
    project_tier := projectTier p s b r k,
    project_phase := ph, notes := nts }

/-- The INSERT statement against the table: appends one row when every
CHECK passes, otherwise fails and leaves the table unchanged. -/
def insertRow (st : List Row) (name cat : String) (p s b r k : Int) (ph nts : String) :
    Except String (List Row) :=
  if checksOk p s b r k ph then
    Except.ok (st ++ [mkRow (st.length + 1) name cat p s b r k ph nts])
  else
    Except.error "CHECK constraint failed"

/-- The argument bag of the `idea_bot_add` tool; `none` is an absent
(JavaScript `undefined`) argument. -/
structure AddArgs where
  project_name : String
  category : String
  priority_level : Option Int := none
  size_score : Option Int := none
  business_impact : Option Int := none
  resource_type : Option Int := none
  risk_level : Option Int := none
  project_phase : Option String := none
  notes : Option String := none
deriving DecidableEq, Repr

/-- JavaScript `x || d` on an optional number: absent and 0 are falsy. -/
def orNum (x : Option Int) (d : Int) : Int :=
  match x with
  | none => d
  | some v => if v = 0 then d else v

/-- JavaScript `x || d` on an optional string: absent and "" are falsy. -/
def orStr (x : Option String) (d : String) : String :=
  match x with
  | none => d
  | some v => if v = "" then d else v

/-- Result of one `idea_bot_add` invocation (content text and error flag). -/
structure AddResult where
  text : String
  isError : Bool
deriving DecidableEq, Repr

/-- The `idea_bot_add` handler: applies the `||` defaults of
`src/idea-bot.js` and runs the INSERT; a store failure is caught and
returned as an error-flagged result with the table unchanged. -/
def idea_bot_add (st : List Row) (args : AddArgs) : AddResult × List Row :=
  match insertRow st args.project_name args.category
      (orNum args.priority_level 1) (orNum args.size_score 1)
      (orNum args.business_impact 1) (orNum args.resource_type 1)
      (orNum args.risk_level 1)
      (orStr args.project_phase "Planning") (orStr args.notes "") with
  | Except.ok st' =>
      ({ text := "Added project \"" ++ args.project_name ++ "\" to database",
         isError := false }, st')
  | Except.error msg =>
      ({ text := "Error: " ++ msg, isError := true }, st)

/-- ASCII case folding as applied by SQLite's LIKE: A-Z fold to a-z. -/
def foldAscii (c : Char) : Char :=
  if 'A' ≤ c ∧ c ≤ 'Z' then Char.ofNat (c.toNat + 32) else c

/-- LIKE comparison of one pattern character with one text character. -/
def likeCharEq (p c : Char) : Bool :=
  decide (foldAscii p = foldAscii c)

/-- Case-folded character list of a string. -/
def foldList (s : List Char) : List Char :=
  s.map foldAscii

/-- Matcher for a pattern starting with `%`: `next` matches the rest of
the pattern against some suffix of the text. -/
def likePercent (next : List Char → Bool) : List Char → Bool
  | [] => next []
  | c :: s => next (c :: s) || likePercent next s

/-- SQLite LIKE matching: `%` matches any run of characters, `_` exactly
one character, and other characters compare ASCII-case-insensitively. -/
def likeMatch : List Char → List Char → Bool
  | [], [] => true
  | [], _ :: _ => false
  | p :: ps, [] => if p = '%' then likeMatch ps [] else false
  | p :: ps, c :: s =>
    if p = '%' then likePercent (likeMatch ps) (c :: s)
    else if p = '_' then likeMatch ps s
    else likeCharEq p c && likeMatch ps s

/-- True when the string contains neither LIKE wildcard. -/
def noWildcard (s : List Char) : Bool :=
  s.all (fun c => !(decide (c = '%')) && !(decide (c = '_')))

/-- The argument bag of the `idea_bot_get` tool. -/
structure GetArgs where
  project_name : Option String := none
  category : Option String := none
  project_tier : Option Int := none
  project_phase : Option String := none
deriving DecidableEq, Repr

/-- JavaScript truthiness of an optional string ("" and absent are falsy):
the `if (args.x)` guard of the dynamic WHERE construction. -/
def truthyStr : Option String → Bool
  | none => false
  | some s => !(decide (s = ""))

/-- JavaScript truthiness of an optional number (0 and absent are falsy). -/
def truthyNum : Option Int → Bool
  | none => false
  | some v => !(decide (v = 0))

/-- The `project_name LIKE %...%` conjunct of the WHERE clause (present
only when the argument is truthy). -/
def nameMatches (args : GetArgs) (r : Row) : Bool :=
  if truthyStr args.project_name then
    likeMatch ('%' :: (args.project_name.getD "").data ++ ['%']) r.project_name.data
  else true

/-- The category, tier and phase conjuncts of the WHERE clause (each
present only when its argument is truthy; equality comparisons). -/
def restMatches (args : GetArgs) (r : Row) : Bool :=
  (if truthyStr args.category then decide (r.category = args.category.getD "") else true) &&
  (if truthyNum args.project_tier then decide (r.project_tier = args.project_tier.getD 0) else true) &&
  (if truthyStr args.project_phase then decide (r.project_phase = args.project_phase.getD "") else true)

/-- The full dynamically built WHERE clause of `idea_bot_get`. -/
def rowMatches (args : GetArgs) (r : Row) : Bool :=
  nameMatches args r && restMatches args r

/-- Result of one `idea_bot_get` invocation: the selected rows (the
handler serializes them as JSON text) and the error flag. -/
structure GetResult where
  rows : List Row
  isError : Bool
deriving DecidableEq, Repr

/-- The `idea_bot_get` handler: a SELECT with the dynamic WHERE clause;
it reads the table and leaves it unchanged. -/
def idea_bot_get (st : List Row) (args : GetArgs) : GetResult × List Row :=
  ({ rows := st.filter (rowMatches args), isError := false }, st)

/-- The argument bag of the `idea_artifact` tool. -/
structure ArtifactArgs where
  view_type : Option String := none
deriving DecidableEq, Repr

/-- The `visualization_instructions` block of the artifact response.
`type` is `args.view_type` verbatim; when the argument is absent the
JavaScript value is `undefined` and JSON serialization drops the field,
modelled as `none`. -/
structure VisualizationInstructions where
  type : Option String
  style : String
  elements : List String
deriving DecidableEq, Repr

/-- Result of one `idea_artifact` invocation. -/
structure ArtifactResult where
  data : List Row
  visualization_instructions : VisualizationInstructions
  isError : Bool
deriving DecidableEq, Repr

/-- The comparator of `ORDER BY priority_level DESC, total_score DESC`:
`a` may precede `b` when it wins on the first key or ties it and does
not lose on the second. -/
def artifactLe (a b : Row) : Bool :=
  decide (b.priority_level < a.priority_level) ||
  (decide (a.priority_level = b.priority_level) && decide (b.total_score ≤ a.total_score))

/-- The ordered record list of the artifact SELECT: all rows, sorted by
the two descending keys with a deterministic stable sort. -/
def artifactData (st : List Row) : List Row :=
  st.mergeSort artifactLe

/-- The `idea_artifact` handler: SELECTs all rows in the documented
order and attaches the fixed presentational hints; the table is read,
never changed. -/
def idea_artifact (st : List Row) (args : ArtifactArgs) : ArtifactResult × List Row :=
  ({ data := artifactData st,
     visualization_instructions :=
       { type := args.view_type,
         style := "futuristic-neon",
         elements := ["hexagonal-grid", "priority-matrix", "pipeline-view",
                      "risk-heatmap", "resource-allocation"] },
     isError := false }, st)

/-- The `summary` object of `generateDashboard`.  `average_score` models
the JavaScript float `sum / length`: `none` is the NaN produced by `0/0`
on the empty list (serialized as `null`), otherwise the exact quotient. -/
structure DashboardSummary where
  total_count : Nat
  high_priority_count : Nat
  average_score : Option Rat
deriving DecidableEq

/-- One entry of the `priority_projects` list of `generateDashboard`. -/
structure PriorityProject where
  name : String
  score : Int
  category : String
  phase : String
  impact : Int
  risk : Int
deriving DecidableEq, Repr

/-- The full payload of `generateDashboard`.  `risk_levels` is the
(high, medium, low) count triple; `resource_types` counts resource type
1, 2 and 3 in that order (the JSON keys of the source). -/
structure Dashboard where
  summary : DashboardSummary
  categories : List (String × Nat)
  phases : List (String × Nat)
  priority_projects : List PriorityProject
  risk_levels : Nat × Nat × Nat
  resource_types : Nat × Nat × Nat
deriving DecidableEq

/-- `acc[k] = (acc[k] || 0) + 1` on a JavaScript object modelled as an
association list in key-insertion order. -/
def bump : List (String × Nat) → String → List (String × Nat)
  | [], k => [(k, 1)]
  | (k', n) :: rest, k =>
    if k' = k then (k', n + 1) :: rest else (k', n) :: bump rest k

/-- The `reduce`-built per-key counts of `generateDashboard`. -/
def countBy (key : Row → String) (ideas : List Row) : List (String × Nat) :=
  ideas.foldl (fun acc p => bump acc (key p)) []

/-- `average_score` of `generateDashboard`: JavaScript division of the
score sum by the length; on the empty list it is `0/0 = NaN` (`none`). -/
def averageScore (ideas : List Row) : Option Rat :=
  if ideas.length = 0 then none
  else some (((ideas.foldl (fun sum p => sum + p.total_score) 0 : Int) : Rat) / (ideas.length : Rat))

/-- The summary-statistics builder `generateDashboard` of
`src/idea-bot.js` (defined there but called by no handler). -/
def generateDashboard (ideas : List Row) : Dashboard :=
  { summary :=
      { total_count := ideas.length,
        high_priority_count := (ideas.filter (fun p => decide (3 ≤ p.priority_level))).length,
        average_score := averageScore ideas },
    categories := countBy (fun p => p.category) ideas,
    phases := countBy (fun p => p.project_phase) ideas,
    priority_projects :=
      ((ideas.filter (fun p => decide (3 ≤ p.priority_level))).mergeSort
          (fun a b => decide (b.total_score ≤ a.total_score))).map
        (fun p => { name := p.project_name, score := p.total_score,
                    category := p.category, phase := p.project_phase,
                    impact := p.business_impact, risk := p.risk_level }),
    risk_levels :=
      ((ideas.filter (fun p => decide (p.risk_level = 3))).length,
       (ideas.filter (fun p => decide (p.risk_level = 2))).length,
       (ideas.filter (fun p => decide (p.risk_level = 1))).length),
    resource_types :=
      ((ideas.filter (fun p => decide (p.resource_type = 1))).length,
       (ideas.filter (fun p => decide (p.resource_type = 2))).length,
       (ideas.filter (fun p => decide (p.resource_type = 3))).length) }

/-- Table states reachable through the tool surface: the empty table and
anything an `idea_bot_add` invocation produces from a reachable state
(`idea_bot_get` and `idea_artifact` return the state unchanged). -/
inductive Reachable : List Row → Prop
  | init : Reachable []
  | add (st : List Row) (args : AddArgs) : Reachable st → Reachable (idea_bot_add st args).2

/-- The derived-column invariant of a stored row: `total_score` is the
sum of the five scored fields and `project_tier` follows the threshold
rule on `total_score`. -/
def scoreInv (r : Row) : Prop :=
  r.total_score = r.priority_level + r.size_score + r.business_impact
      + r.resource_type + r.risk_level ∧
  r.project_tier = (if 16 ≤ r.total_score then 1 else if 11 ≤ r.total_score then 2 else 3)

instance (r : Row) : Decidable (scoreInv r) := by
  unfold scoreInv; infer_instance

/-- An optional scored field is either absent or within its range. -/
def okOpt (o : Option Int) (lo hi : Int) : Bool :=
  match o with
  | none => true
  | some v => decide (lo ≤ v) && decide (v ≤ hi)

/-- An optional phase is either absent or one of the four enum values. -/
def okPhase (o : Option String) : Bool :=
  match o with
  | none => true
  | some ph => phaseOk ph

/-- Validity of add arguments per §3/§4.2 of the spec: required strings
non-empty, every supplied scored field within its documented range, a
supplied phase among the four enumerated values. -/
def validAddArgs (args : AddArgs) : Bool :=
  (!(decide (args.project_name = ""))) && (!(decide (args.category = ""))) &&
  okOpt args.priority_level 1 4 && okOpt args.size_score 1 3 &&
  okOpt args.business_impact 1 4 && okOpt args.resource_type 1 3 &&
  okOpt args.risk_level 1 3 && okPhase args.project_phase

/-- A supplied scored field that is non-zero yet outside its documented
range (the zero case is excluded: `||` defaulting turns it into 1). -/
def badOpt (o : Option Int) (lo hi : Int) : Bool :=
  match o with
  | none => false
  | some v => (!(decide (v = 0))) && (!(decide (lo ≤ v) && decide (v ≤ hi)))

/-- Some scored field of the add arguments is supplied, non-zero and out
of range. -/
def someFieldBad (args : AddArgs) : Bool :=
  badOpt args.priority_level 1 4 || badOpt args.size_score 1 3 ||
  badOpt args.business_impact 1 4 || badOpt args.resource_type 1 3 ||
  badOpt args.risk_level 1 3

/-- Example arguments used by concrete instantiations. -/
def addAlpha : AddArgs :=
  { project_name := "Alpha", category := "General", priority_level := some 3 }

/-- Example add arguments mixing supplied and omitted optional fields. -/
def addGamma : AddArgs :=
  { project_name := "Gamma", category := "Soft", priority_level := some 4,
    size_score := some 2, project_phase := some "On Hold" }

/-- Example add arguments with a supplied zero priority level. -/
def addZero : AddArgs :=
  { project_name := "Z", category := "C", priority_level := some 0 }

/-- Example add arguments with an out-of-range priority level. -/
def addFive : AddArgs :=
  { project_name := "Z", category := "C", priority_level := some 5 }

/-- A one-row table obtained by adding a project named "ABC". -/
def stABC : List Row :=
  (idea_bot_add [] { project_name := "ABC", category := "T" }).2

/-- The row that the add producing `stABC` stores. -/
def rowABC : Row :=
  mkRow 1 "ABC" "T" 1 1 1 1 1 "Planning" ""

/-! Helper lemmas about LIKE matching -/

theorem likeMatch_nil_iff (s : List Char) : likeMatch [] s = true ↔ s = [] := by
  cases s <;> simp [likeMatch]

theorem likePercent_iff (next : List Char → Bool) (s : List Char) :
    likePercent next s = true ↔ ∃ t, t <:+ s ∧ next t = true := by
  induction s with
  | nil =>
    simp [likePercent, List.suffix_nil]
  | cons c s ih =>
    simp only [likePercent, Bool.or_eq_true, ih, List.suffix_cons_iff]
    constructor
    · rintro (h | ⟨t, ht, hn⟩)
      · exact ⟨c :: s, Or.inl rfl, h⟩
      · exact ⟨t, Or.inr ht, hn⟩
    · rintro ⟨t, (rfl | ht), hn⟩
      · exact Or.inl hn
      · exact Or.inr ⟨t, ht, hn⟩

theorem likeMatch_percent_cons (ps s : List Char) :
    likeMatch ('%' :: ps) s = likePercent (likeMatch ps) s := by
  cases s <;> simp [likeMatch, likePercent]

theorem likeMatch_single_percent (s : List Char) : likeMatch ['%'] s = true := by
  rw [likeMatch_percent_cons, likePercent_iff]
  refine ⟨[], ?_, by simp [likeMatch]⟩
  exact List.nil_suffix

theorem likeMatch_append_percent (p : List Char) (hp : noWildcard p = true) (s : List Char) :
    likeMatch (p ++ ['%']) s = true ↔ ∃ q, q <+: s ∧ foldList q = foldList p := by
  induction p generalizing s with
  | nil =>
    simp only [List.nil_append]
    constructor
    · intro _
      refine ⟨[], ?_, rfl⟩
      exact List.nil_prefix
    · intro _
      exact likeMatch_single_percent s
  | cons c p ih =>
    have hp' : noWildcard p = true := by
      simp only [noWildcard, List.all_cons, Bool.and_eq_true] at hp
      exact hp.2
    have hc1 : c ≠ '%' := by
      simp only [noWildcard, List.all_cons, Bool.and_eq_true, Bool.not_eq_true',
        decide_eq_false_iff_not] at hp
      exact hp.1.1
    have hc2 : c ≠ '_' := by
      simp only [noWildcard, List.all_cons, Bool.and_eq_true, Bool.not_eq_true',
        decide_eq_false_iff_not] at hp
      exact hp.1.2
    cases s with
    | nil =>
      constructor
      · intro h
        rw [List.cons_append] at h
        simp only [likeMatch, if_neg hc1] at h
        exact absurd h (by simp)
      · rintro ⟨q, hq, hfold⟩
        rw [List.prefix_nil] at hq
        subst hq
        simp [foldList] at hfold
    | cons d s =>
      rw [List.cons_append]
      simp only [likeMatch, if_neg hc1, if_neg hc2, Bool.and_eq_true, ih hp']
      constructor
      · rintro ⟨hcd, q, hq, hfold⟩
        refine ⟨d :: q, List.cons_prefix_cons.mpr ⟨rfl, hq⟩, ?_⟩
        simp only [foldList, List.map_cons] at hfold ⊢
        simp only [likeCharEq, decide_eq_true_eq] at hcd
        rw [hfold, hcd]
      · rintro ⟨q, hq, hfold⟩
        cases q with
        | nil =>
          simp [foldList] at hfold
        | cons e q =>
          obtain ⟨hed, hq2⟩ := List.cons_prefix_cons.mp hq
          subst hed
          simp only [foldList, List.map_cons, List.cons.injEq] at hfold
          obtain ⟨heq, hfold2⟩ := hfold
          exact ⟨by simp [likeCharEq, heq], q, hq2, hfold2⟩

theorem likeMatch_wrap_iff (φ : List Char) (h : noWildcard φ = true) (s : List Char) :
    likeMatch ('%' :: (φ ++ ['%'])) s = true ↔
      ∃ u, u <:+: s ∧ foldList u = foldList φ := by
  rw [likeMatch_percent_cons, likePercent_iff]
  constructor
  · rintro ⟨t, ht, hm⟩
    obtain ⟨q, hq, hfold⟩ := (likeMatch_append_percent φ h t).mp hm
    exact ⟨q, List.infix_iff_prefix_suffix.mpr ⟨t, hq, ht⟩, hfold⟩
  · rintro ⟨u, hu, hfold⟩
    obtain ⟨t, hq, ht⟩ := List.infix_iff_prefix_suffix.mp hu
    exact ⟨t, ht, (likeMatch_append_percent φ h t).mpr ⟨u, hq, hfold⟩⟩

theorem likeMatch_self_append (φ : List Char) : likeMatch (φ ++ ['%']) φ = true := by
  induction φ with
  | nil => exact likeMatch_single_percent []
  | cons c φ ih =>
    by_cases hc1 : c = '%'
    · subst hc1
      simp only [List.cons_append, likeMatch_percent_cons, likePercent_iff]
      exact ⟨φ, List.suffix_cons '%' φ, ih⟩
    · by_cases hc2 : c = '_'
      · simp only [List.cons_append, likeMatch, if_neg hc1, if_pos hc2]
        exact ih
      · simp only [List.cons_append, likeMatch, if_neg hc1, if_neg hc2, Bool.and_eq_true]
        exact ⟨by simp [likeCharEq], ih⟩

theorem likeMatch_wrap_self (φ : List Char) : likeMatch ('%' :: (φ ++ ['%'])) φ = true := by
  rw [likeMatch_percent_cons, likePercent_iff]
  exact ⟨φ, List.suffix_rfl, likeMatch_self_append φ⟩

/-! Helper lemmas about defaulting and the comparator -/

theorem orNum_eq_getD (o : Option Int) (d : Int) (h : ∀ v ∈ o, 1 ≤ v) :
    orNum o d = o.getD d := by
  cases o with
  | none => rfl
  | some v =>
    have hv : v ≠ 0 := by
      have := h v rfl
      omega
    simp [orNum, hv]

theorem orStr_notes_eq_getD (o : Option String) : orStr o "" = o.getD "" := by
  cases o with
  | none => rfl
  | some v =>
    by_cases hv : v = "" <;> simp [orStr, hv]

theorem orStr_eq_getD (o : Option String) (d : String) (h : ∀ v ∈ o, v ≠ "") :
    orStr o d = o.getD d := by
  cases o with
  | none => rfl
  | some v => simp [orStr, h v rfl]

theorem phaseOk_ne_empty (ph : String) (h : phaseOk ph = true) : ph ≠ "" := by
  intro he
  subst he
  simp [phaseOk] at h

theorem okOpt_mem (o : Option Int) (lo hi : Int) (h : okOpt o lo hi = true) :
    ∀ v ∈ o, lo ≤ v ∧ v ≤ hi := by
  intro v hv
  cases o with
  | none => cases hv
  | some w =>
    rw [Option.mem_def, Option.some.injEq] at hv
    subst hv
    simpa [okOpt] using h

theorem okOpt_getD (o : Option Int) (hi : Int) (hhi : 1 ≤ hi) (h : okOpt o 1 hi = true) :
    1 ≤ o.getD 1 ∧ o.getD 1 ≤ hi := by
  cases o with
  | none => simpa using hhi
  | some v => simpa [okOpt] using h

theorem okPhase_mem (o : Option String) (h : okPhase o = true) :
    ∀ v ∈ o, phaseOk v = true := by
  intro v hv
  cases o with
  | none => cases hv
  | some ph =>
    rw [Option.mem_def, Option.some.injEq] at hv
    subst hv
    simpa [okPhase] using h

theorem okPhase_getD (o : Option String) (h : okPhase o = true) :
    phaseOk (o.getD "Planning") = true := by
  cases o with
  | none => decide
  | some ph => simpa [okPhase] using h

theorem badOpt_orNum (o : Option Int) (lo hi : Int) (h : badOpt o lo hi = true) :
    (decide (lo ≤ orNum o 1) && decide (orNum o 1 ≤ hi)) = false := by
  cases o with
  | none => simp [badOpt] at h
  | some v =>
    simp only [badOpt, Bool.and_eq_true, Bool.not_eq_true', decide_eq_false_iff_not] at h
    obtain ⟨hv0, hrange⟩ := h
    simpa [orNum, hv0] using hrange

theorem artifactLe_trans (a b c : Row) (h1 : artifactLe a b = true) (h2 : artifactLe b c = true) :
    artifactLe a c = true := by
  simp only [artifactLe, Bool.or_eq_true, Bool.and_eq_true, decide_eq_true_eq] at h1 h2 ⊢
  omega

theorem artifactLe_total (a b : Row) : (artifactLe a b || artifactLe b a) = true := by
  simp only [artifactLe, Bool.or_eq_true, Bool.and_eq_true, decide_eq_true_eq]
  omega

/-! Claim theorems -/

/-- C1: every record stored through the tool surface has `total_score`
equal to the sum of its five scored fields and `project_tier` given by
the threshold rule (1 when the total is at least 16, 2 when at least 11,
else 3); both are recomputed by the store on insert — the INSERT path
computes them from the scored inputs and accepts no direct value. -/
theorem stored_rows_satisfy_score_invariant (st : List Row) (h : Reachable st) :
    ∀ r ∈ st, scoreInv r := by
  induction h with
  | init => simp
  | add st args _ ih =>
    intro r hmem
    by_cases hc : checksOk (orNum args.priority_level 1) (orNum args.size_score 1)
        (orNum args.business_impact 1) (orNum args.resource_type 1)
        (orNum args.risk_level 1) (orStr args.project_phase "Planning") = true
    · simp only [idea_bot_add, insertRow, if_pos hc, List.mem_append, List.mem_singleton] at hmem
      rcases hmem with hmem | rfl
      · exact ih r hmem
      · refine ⟨rfl, ?_⟩
        simp [mkRow, totalScore, projectTier]
    · simp only [idea_bot_add, insertRow, if_neg hc] at hmem
      exact ih r hmem

/-- Witness for C1 at a concrete reachable table: the row stored by
adding a project with all scored fields defaulted satisfies the
derived-column invariant. -/
theorem stored_rows_satisfy_score_invariant_witness : scoreInv rowABC :=
  stored_rows_satisfy_score_invariant stABC
    (Reachable.add [] { project_name := "ABC", category := "T" } Reachable.init)
    rowABC (by decide)

/-- C6 (behavior at the failing input): the artifact response's
`visualization_instructions.type` is the `view_type` argument passed
through verbatim; when the argument is omitted it is `undefined`
(`none`, dropped from the JSON), not the declared default "all". -/
theorem artifact_view_type_passthrough (st : List Row) (v : String) :
    (idea_artifact st { view_type := none }).1.visualization_instructions.type = none ∧
    (idea_artifact st { view_type := some v }).1.visualization_instructions.type = some v :=
  ⟨rfl, rfl⟩

/-- C7: every artifact invocation returns all stored records (a
permutation of the table), ordered by `priority_level` descending with
ties broken by `total_score` descending, and the returned order does not
depend on the argument bag — repeated invocations against unchanged data
return the records in the same relative order. -/
theorem artifact_ordering (st : List Row) (args args' : ArtifactArgs) :
    ((idea_artifact st args).1.data.Perm st) ∧
    ((idea_artifact st args).1.data.Pairwise (fun a b =>
        b.priority_level < a.priority_level ∨
        (a.priority_level = b.priority_level ∧ b.total_score ≤ a.total_score))) ∧
    (idea_artifact st args).1.data = (idea_artifact st args').1.data := by
  refine ⟨List.mergeSort_perm st artifactLe, ?_, rfl⟩
  have hs := @List.sorted_mergeSort Row artifactLe artifactLe_trans artifactLe_total st
  refine hs.imp ?_
  intro a b hab
  simpa only [artifactLe, Bool.or_eq_true, Bool.and_eq_true, decide_eq_true_eq] using hab

/-- C8: an artifact invocation on the empty table returns zero records
without an error, and the summary-statistics builder applied to the
empty record list yields zero counts and a `none` (JavaScript NaN,
serialized `null`) average — the average computation is total and does
not fail on the empty list. -/
theorem artifact_empty_store_safe :
    (idea_artifact [] { view_type := none }).1.data = [] ∧
    (idea_artifact [] { view_type := none }).1.isError = false ∧
    generateDashboard [] =
      { summary := { total_count := 0, high_priority_count := 0, average_score := none },
        categories := [], phases := [], priority_projects := [],
        risk_levels := (0, 0, 0), resource_types := (0, 0, 0) } := by
  refine ⟨?_, rfl, ?_⟩
  · simp [idea_artifact, artifactData, List.mergeSort_nil]
  · simp [generateDashboard, countBy, averageScore, List.mergeSort_nil]

/-- C9: a filter argument supplied with a JavaScript-falsy value (empty
string for the three string filters, 0 for `project_tier`) is omitted
from the WHERE conjunction exactly as if it were absent, so the whole
invocation result is unchanged. -/
theorem falsy_filters_ignored (st : List Row) (args : GetArgs) :
    idea_bot_get st { args with project_name := some "" } =
      idea_bot_get st { args with project_name := none } ∧
    idea_bot_get st { args with category := some "" } =
      idea_bot_get st { args with category := none } ∧
    idea_bot_get st { args with project_tier := some 0 } =
      idea_bot_get st { args with project_tier := none } ∧
    idea_bot_get st { args with project_phase := some "" } =
      idea_bot_get st { args with project_phase := none } := by
  refine ⟨?_, ?_, ?_, ?_⟩ <;>
  · simp only [idea_bot_get, Prod.mk.injEq, GetResult.mk.injEq, and_true, true_and]
    exact List.filter_congr (fun r _ => by
      simp [rowMatches, nameMatches, restMatches, truthyStr, truthyNum])

/-- C10: neither `idea_bot_get` nor `idea_artifact` mutates the store:
both handlers only execute a SELECT, so the table after either
invocation is exactly the table before it. -/
theorem select_handlers_preserve_store (st : List Row) (gargs : GetArgs)
    (aargs : ArtifactArgs) :
    (idea_bot_get st gargs).2 = st ∧ (idea_artifact st aargs).2 = st :=
  ⟨rfl, rfl⟩

/-- C2 counterexample: when the table already holds a record whose name
matches the filter, add-idea followed by get-ideas on the same
`project_name` returns two records, not exactly one — the claim as
stated fails for a non-fresh table. -/
theorem add_then_get_two_records :
    (idea_bot_get (idea_bot_add (idea_bot_add [] addAlpha).2 addAlpha).2
        { project_name := some "Alpha" }).1.rows.length = 2 := by
  decide

/-- C2 (amended): for valid inputs, when no already-stored record's
`project_name` matches the LIKE pattern of the supplied name (in
particular from the empty table), add-idea followed by get-ideas
filtered on the same `project_name` returns exactly the one new record,
whose stored fields are the supplied inputs with the documented defaults
substituted for every omitted optional field. -/
theorem add_then_get_returns_exactly_inserted (st : List Row) (args : AddArgs)
    (hv : validAddArgs args = true)
    (hfresh : ∀ r ∈ st,
      likeMatch ('%' :: (args.project_name.data ++ ['%'])) r.project_name.data = false) :
    (idea_bot_get (idea_bot_add st args).2 { project_name := some args.project_name }).1.rows =
      [mkRow (st.length + 1) args.project_name args.category
        (args.priority_level.getD 1) (args.size_score.getD 1) (args.business_impact.getD 1)
        (args.resource_type.getD 1) (args.risk_level.getD 1)
        (args.project_phase.getD "Planning") (args.notes.getD "")] := by
  simp only [validAddArgs, Bool.and_eq_true, Bool.not_eq_true', decide_eq_false_iff_not] at hv
  obtain ⟨⟨⟨⟨⟨⟨⟨hpn, _⟩, hpr⟩, hsz⟩, hbi⟩, hrt⟩, hrk⟩, hph⟩ := hv
  have hd1 : orNum args.priority_level 1 = args.priority_level.getD 1 :=
    orNum_eq_getD _ _ (fun v hv' => (okOpt_mem _ _ _ hpr v hv').1)
  have hd2 : orNum args.size_score 1 = args.size_score.getD 1 :=
    orNum_eq_getD _ _ (fun v hv' => (okOpt_mem _ _ _ hsz v hv').1)
  have hd3 : orNum args.business_impact 1 = args.business_impact.getD 1 :=
    orNum_eq_getD _ _ (fun v hv' => (okOpt_mem _ _ _ hbi v hv').1)
  have hd4 : orNum args.resource_type 1 = args.resource_type.getD 1 :=
    orNum_eq_getD _ _ (fun v hv' => (okOpt_mem _ _ _ hrt v hv').1)
  have hd5 : orNum args.risk_level 1 = args.risk_level.getD 1 :=
    orNum_eq_getD _ _ (fun v hv' => (okOpt_mem _ _ _ hrk v hv').1)
  have hphp : orStr args.project_phase "Planning" = args.project_phase.getD "Planning" :=
    orStr_eq_getD _ _ (fun v hv' => phaseOk_ne_empty v (okPhase_mem _ hph v hv'))
  have hnt : orStr args.notes "" = args.notes.getD "" := orStr_notes_eq_getD _
  have hco : checksOk (args.priority_level.getD 1) (args.size_score.getD 1)
      (args.business_impact.getD 1) (args.resource_type.getD 1) (args.risk_level.getD 1)
      (args.project_phase.getD "Planning") = true := by
    have h1 := okOpt_getD _ _ (by norm_num) hpr
    have h2 := okOpt_getD _ _ (by norm_num) hsz
    have h3 := okOpt_getD _ _ (by norm_num) hbi
    have h4 := okOpt_getD _ _ (by norm_num) hrt
    have h5 := okOpt_getD _ _ (by norm_num) hrk
    have h6 := okPhase_getD _ hph
    simp only [checksOk, Bool.and_eq_true, decide_eq_true_eq]
    exact ⟨⟨⟨⟨⟨h1, h2⟩, h3⟩, h4⟩, h5⟩, h6⟩
  have hadd : (idea_bot_add st args).2 =
      st ++ [mkRow (st.length + 1) args.project_name args.category
        (args.priority_level.getD 1) (args.size_score.getD 1) (args.business_impact.getD 1)
        (args.resource_type.getD 1) (args.risk_level.getD 1)
        (args.project_phase.getD "Planning") (args.notes.getD "")] := by
    simp only [idea_bot_add, hd1, hd2, hd3, hd4, hd5, hphp, hnt, insertRow, if_pos hco]
  rw [hadd]
  simp only [idea_bot_get, List.filter_append]
  have h1 : st.filter (rowMatches { project_name := some args.project_name }) = [] := by
    rw [List.filter_eq_nil_iff]
    intro r hr
    simp [rowMatches, nameMatches, truthyStr, hpn, hfresh r hr]
  have h2 : List.filter (rowMatches { project_name := some args.project_name })
      [mkRow (st.length + 1) args.project_name args.category
        (args.priority_level.getD 1) (args.size_score.getD 1) (args.business_impact.getD 1)
        (args.resource_type.getD 1) (args.risk_level.getD 1)
        (args.project_phase.getD "Planning") (args.notes.getD "")] =
      [mkRow (st.length + 1) args.project_name args.category
        (args.priority_level.getD 1) (args.size_score.getD 1) (args.business_impact.getD 1)
        (args.resource_type.getD 1) (args.risk_level.getD 1)
        (args.project_phase.getD "Planning") (args.notes.getD "")] := by
    simp [rowMatches, nameMatches, restMatches, truthyStr, truthyNum, hpn, mkRow,
      likeMatch_wrap_self]
  rw [h1, h2, List.nil_append]

/-- Witness for the amended C2 at concrete inputs: from the empty table,
adding "Gamma" (priority 4, size 2, phase "On Hold", the rest omitted)
and filtering on "Gamma" returns exactly the stored row with defaults
substituted. -/
theorem add_then_get_returns_exactly_inserted_witness :
    (idea_bot_get (idea_bot_add [] addGamma).2 { project_name := some "Gamma" }).1.rows =
      [mkRow 1 "Gamma" "Soft" 4 2 1 1 1 "On Hold" ""] :=
  add_then_get_returns_exactly_inserted [] addGamma (by decide) (by simp)

/-- C3 counterexample: `priority_level = 0` is present and outside the
documented range [1,4], yet the operation succeeds (`||` defaulting
turns the falsy 0 into 1) and inserts one row with priority 1 — it does
not report an error with the row count unchanged. -/
theorem add_zero_scored_field_inserts :
    (idea_bot_add [] addZero).1.isError = false ∧
    ((idea_bot_add [] addZero).2).length = 1 ∧
    ((idea_bot_add [] addZero).2).map Row.priority_level = [1] := by
  refine ⟨rfl, ?_, ?_⟩ <;> decide

/-- C3 (amended): an add-idea invocation in which some scored field is
present, non-zero and outside its documented range reports an error
result and inserts no row — the table is unchanged.  (A supplied 0 is
JavaScript-falsy and is silently replaced by the default 1 instead.) -/
theorem add_out_of_range_rejected (st : List Row) (args : AddArgs)
    (h : someFieldBad args = true) :
    (idea_bot_add st args).1.isError = true ∧ (idea_bot_add st args).2 = st := by
  have hc : checksOk (orNum args.priority_level 1) (orNum args.size_score 1)
      (orNum args.business_impact 1) (orNum args.resource_type 1)
      (orNum args.risk_level 1) (orStr args.project_phase "Planning") = false := by
    simp only [someFieldBad, Bool.or_eq_true] at h
    rcases h with ((((h | h) | h) | h) | h) <;>
    · have hb := badOpt_orNum _ _ _ h
      simp [checksOk, hb]
  constructor <;>
  · simp only [idea_bot_add, insertRow, hc, if_false, Bool.false_eq_true]

/-- Witness for the amended C3: `priority_level = 5` yields an
error-flagged result and leaves the empty table empty. -/
theorem add_out_of_range_rejected_witness :
    (idea_bot_add [] addFive).1.isError = true ∧
    (idea_bot_add [] addFive).2 = [] :=
  add_out_of_range_rejected [] addFive (by decide)

/-- C4 counterexample: the filter "abc" returns the stored record named
"ABC" although "abc" does not occur case-sensitively as a substring of
"ABC" — SQLite LIKE compares ASCII letters case-insensitively, so the
match is not case-sensitive. -/
theorem like_filter_matches_other_case :
    rowABC ∈ (idea_bot_get stABC { project_name := some "abc" }).1.rows ∧
    ¬ (("abc".data : List Char) <:+: "ABC".data) := by
  refine ⟨by decide, by decide⟩

/-- C4 (amended): for a non-empty `project_name` filter containing no
LIKE wildcard, a stored record is returned exactly when some contiguous
substring of its `project_name` equals the filter up to ASCII case
folding (conjoined with the remaining supplied filters). -/
theorem get_name_filter_ascii_ci_substring (st : List Row) (args : GetArgs) (φ : String)
    (r : Row) (hname : args.project_name = some φ) (hφ : φ ≠ "")
    (hw : noWildcard φ.data = true) :
    (r ∈ (idea_bot_get st args).1.rows ↔
      r ∈ st ∧ (∃ u, u <:+: r.project_name.data ∧ foldList u = foldList φ.data) ∧
        restMatches args r = true) := by
  have hnm_eq : ∀ r' : Row, nameMatches args r' =
      likeMatch ('%' :: (φ.data ++ ['%'])) r'.project_name.data := by
    intro r'
    simp [nameMatches, hname, truthyStr, hφ]
  simp only [idea_bot_get, List.mem_filter, rowMatches, Bool.and_eq_true, hnm_eq,
    likeMatch_wrap_iff φ.data hw, and_assoc]

/-- Witness for the amended C4: the record named "ABC" is returned under
the filter "abc", and indeed "ABC" itself folds to "abc". -/
theorem get_name_filter_ascii_ci_substring_witness :
    (rowABC ∈ (idea_bot_get stABC { project_name := some "abc" }).1.rows ↔
      rowABC ∈ stABC ∧
        (∃ u, u <:+: rowABC.project_name.data ∧ foldList u = foldList "abc".data) ∧
        restMatches { project_name := some "abc" } rowABC = true) :=
  get_name_filter_ascii_ci_substring stABC { project_name := some "abc" } "abc" rowABC rfl
    (by decide) (by decide)

/-- C5 counterexample: a `project_tier` filter of 0 is JavaScript-falsy,
so the WHERE conjunct is dropped and the invocation returns the stored
record rather than zero matches. -/
theorem get_tier_zero_returns_rows :
    (idea_bot_get stABC { project_tier := some 0 }).1.isError = false ∧
    (idea_bot_get stABC { project_tier := some 0 }).1.rows = [rowABC] := by
  refine ⟨rfl, by decide⟩

/-- C5 (amended): a get-ideas invocation supplying a non-zero
`project_tier` outside {1,2,3}, against a table whose rows all carry a
tier in {1,2,3} (as every stored row does), succeeds without error and
returns zero records. -/
theorem get_out_of_range_tier_returns_empty (st : List Row) (args : GetArgs) (t : Int)
    (ht : args.project_tier = some t) (h0 : t ≠ 0)
    (h123 : t ≠ 1 ∧ t ≠ 2 ∧ t ≠ 3)
    (hst : ∀ r ∈ st, r.project_tier = 1 ∨ r.project_tier = 2 ∨ r.project_tier = 3) :
    (idea_bot_get st args).1.isError = false ∧ (idea_bot_get st args).1.rows = [] := by
  obtain ⟨h1, h2, h3⟩ := h123
  refine ⟨rfl, ?_⟩
  simp only [idea_bot_get]
  rw [List.filter_eq_nil_iff]
  intro r hr
  have htier := hst r hr
  have hne : r.project_tier ≠ t := by
    rcases htier with h | h | h <;> omega
  have hrest : restMatches args r = false := by
    simp [restMatches, ht, truthyNum, h0, hne]
  have hrm : rowMatches args r = false := by
    simp [rowMatches, hrest]
  simp [hrm]

/-- Witness for the amended C5: filtering the one-row table on tier 5
returns no records and no error. -/
theorem get_out_of_range_tier_returns_empty_witness :
    (idea_bot_get stABC { project_tier := some 5 }).1.isError = false ∧
    (idea_bot_get stABC { project_tier := some 5 }).1.rows = [] :=
  get_out_of_range_tier_returns_empty stABC { project_tier := some 5 } 5 rfl
    (by decide) (by decide) (by decide)

end IdeaTracker
